import Mathlib

/-!
Shallow embedding of the anonymous-user quota enforcement subsystem of the
CollabioraBackend repository (src/middleware/deviceToken.js).

The middleware tracks unauthenticated visitors by two independent signals:
a cookie-held device token whose usage counter lives in the `DeviceToken`
Mongo collection, and a salted hash of the client network address whose
counter lives in the `IPLimit` collection.  Both stores are modelled as
association lists from key to `searchCount`, together with boolean flags
saying whether a given class of store operation throws (modelling a store
outage); the JavaScript `try/catch` recovery then corresponds to the
branches taken when a flag is set.  JavaScript string truthiness
(`undefined`/`null`/`""` are falsy) is modelled by `truthy` on
`Option String`.  The SHA-256 digest used by `hashIP` is kept abstract as
a `digest : String → String` parameter (the salt is folded into it);
nothing in the middleware depends on its value, only on it being applied.
-/

/-- JavaScript truthiness for an optional string: `undefined`/`null` and the
empty string are falsy, every other string is truthy. -/
def truthy : Option String → Bool
  | none => false
  | some s => s != ""

/-- JavaScript `a || b` on optional strings: yields `a` when `a` is truthy,
otherwise `b`. -/
def jsOr (a b : Option String) : Option String :=
  if truthy a then a else b

/-- Request metadata consumed by the middleware: the two proxy headers, the
three transport-level address fallbacks, the authenticated-session marker
`req.user`, and the inbound `device_token` cookie. -/
structure Request where
  xForwardedFor : Option String
  xRealIP : Option String
  connectionRemoteAddress : Option String
  socketRemoteAddress : Option String
  reqIP : Option String
  user : Bool
  cookieDeviceToken : Option String
deriving DecidableEq, Repr

/-- `MAX_FREE_SEARCHES` from src/middleware/deviceToken.js line 6. -/
def MAX_FREE_SEARCHES : Int := 6

/-- Splitting a character list at every occurrence of a separator, the model
of JavaScript `String.prototype.split` with a one-character separator:
`"".split(sep)` gives `[""]` and separators at the ends give empty entries. -/
def splitChar (sep : Char) : List Char → List (List Char)
  | [] => [[]]
  | c :: rest =>
    match splitChar sep rest with
    | [] => if c = sep then [[], []] else [[c]]
    | h :: t => if c = sep then [] :: h :: t else (c :: h) :: t

/-- JavaScript `s.split(sep)` for a one-character separator, as strings. -/
def jsSplit (s : String) (sep : Char) : List String :=
  (splitChar sep s.data).map (fun l => String.mk l)

/-- JavaScript `String.prototype.trim`: strip leading and trailing
whitespace. -/
def jsTrim (s : String) : String :=
  String.mk
    (((s.data.dropWhile Char.isWhitespace).reverse.dropWhile Char.isWhitespace).reverse)

/-- `getClientIP` (src/middleware/deviceToken.js lines 12-28): first the
`x-forwarded-for` header (first comma-separated entry, trimmed), else the
`x-real-ip` header, else `connection.remoteAddress || socket.remoteAddress
|| req.ip || null`. -/
def getClientIP (req : Request) : Option String :=
  if truthy req.xForwardedFor then
    some (((jsSplit (req.xForwardedFor.getD "") ',').map jsTrim).headD "")
  else if truthy req.xRealIP then
    req.xRealIP
  else
    jsOr req.connectionRemoteAddress
      (jsOr req.socketRemoteAddress (jsOr req.reqIP none))

/-- `hashIP` (src/middleware/deviceToken.js lines 34-46): `null` on a falsy
address, otherwise the salted SHA-256 hex digest, abstracted as `digest`
(salt folded in). -/
def hashIP (digest : String → String) (ip : String) : Option String :=
  if ip = "" then none else some (digest ip)

/-- Association-list model of a Mongo `findOne` by key: the `searchCount`
of the first record whose key matches, if any. -/
def findRecord : List (String × Nat) → String → Option Nat
  | [], _ => none
  | (t, c) :: rest, k => if t = k then some c else findRecord rest k

/-- Association-list model of Mongo `findOneAndUpdate` with `$inc:
searchCount 1` and no upsert: increments the first matching record, leaves
the list unchanged when no record matches. -/
def incrementFirst : List (String × Nat) → String → List (String × Nat)
  | [], _ => []
  | (t, c) :: rest, k =>
    if t = k then (t, c + 1) :: rest else (t, c) :: incrementFirst rest k

/-- Association-list model of Mongo `findOneAndUpdate` with `$inc:
searchCount 1` and `upsert: true`: increments the first matching record, or
creates a fresh record with count 1 when none matches. -/
def upsertIncrement (recs : List (String × Nat)) (k : String) : List (String × Nat) :=
  match findRecord recs k with
  | some _ => incrementFirst recs k
  | none => (k, 1) :: recs

/-- The `DeviceToken` collection (Identity Store): token to `searchCount`,
plus flags saying whether `findOne`, `create` or `findOneAndUpdate` throws. -/
structure IdStore where
  records : List (String × Nat)
  findFails : Bool
  createFails : Bool
  updateFails : Bool
deriving DecidableEq, Repr

/-- The `IPLimit` collection (Network-Origin Store): hashed address to
`searchCount`, plus flags saying whether `findOne` or the upsert throws. -/
structure IpStore where
  records : List (String × Nat)
  findFails : Bool
  updateFails : Bool
deriving DecidableEq, Repr

/-- `DeviceToken.create token, searchCount: 0` (src/middleware/deviceToken.js
lines 73-76 and 102-105). -/
def dtCreate (dts : IdStore) (token : String) : IdStore :=
  { dts with records := (token, 0) :: dts.records }

/-- The `canSearch, remaining` result returned by the quota checks. -/
structure LimitResult where
  canSearch : Bool
  remaining : Int
deriving DecidableEq, Repr

/-- `Math.max(0, MAX_FREE_SEARCHES - searchCount)` (src/middleware/
deviceToken.js lines 151-154 and 207-210). -/
def remainingFor (count : Nat) : Int :=
  max 0 (MAX_FREE_SEARCHES - (count : Int))

/-- `checkIPSearchLimit` (src/middleware/deviceToken.js lines 131-163):
fail-open `canSearch: true, remaining: MAX_FREE_SEARCHES` when the client
address is falsy, when its hash is falsy, when the `IPLimit` lookup throws,
or when no record exists; otherwise `remaining = Math.max(0, MAX -
searchCount)` and `canSearch = remaining > 0`. -/
def checkIPSearchLimit (digest : String → String) (ips : IpStore) (req : Request) :
    LimitResult :=
  let clientIP := getClientIP req
  if truthy clientIP = false then
    ⟨true, MAX_FREE_SEARCHES⟩
  else
    let hashedIP := hashIP digest (clientIP.getD "")
    if truthy hashedIP = false then
      ⟨true, MAX_FREE_SEARCHES⟩
    else if ips.findFails then
      ⟨true, MAX_FREE_SEARCHES⟩
    else
      match findRecord ips.records (hashedIP.getD "") with
      | none => ⟨true, MAX_FREE_SEARCHES⟩
      | some c => ⟨decide (0 < remainingFor c), remainingFor c⟩

/-- The device-token side of `checkSearchLimit` (src/middleware/
deviceToken.js lines 200-219): the result stays at the default
`canSearch: false, remaining: 0` when the token is falsy, when the
`DeviceToken` lookup throws (the catch only logs), or when no record
matches; otherwise `remaining = Math.max(0, MAX - searchCount)` and
`canSearch = remaining > 0`. -/
def deviceSignal (dts : IdStore) (deviceToken : Option String) : LimitResult :=
  if truthy deviceToken then
    if dts.findFails then
      ⟨false, 0⟩
    else
      match findRecord dts.records (deviceToken.getD "") with
      | some c => ⟨decide (0 < remainingFor c), remainingFor c⟩
      | none => ⟨false, 0⟩
  else
    ⟨false, 0⟩

/-- The IP side of `checkSearchLimit` (src/middleware/deviceToken.js lines
221-225): `checkIPSearchLimit` when a request is passed, otherwise the
default `canSearch: true, remaining: MAX_FREE_SEARCHES`. -/
def ipSignal (digest : String → String) (ips : IpStore) (req : Option Request) :
    LimitResult :=
  match req with
  | some r => checkIPSearchLimit digest ips r
  | none => ⟨true, MAX_FREE_SEARCHES⟩

/-- `checkSearchLimit` (src/middleware/deviceToken.js lines 198-233): the
device-token signal and the IP signal (defaulting to fully allowed when no
request is passed) are AND-combined on `canSearch` and MIN-combined on
`remaining`. -/
def checkSearchLimit (digest : String → String) (dts : IdStore) (ips : IpStore)
    (deviceToken : Option String) (req : Option Request) : LimitResult :=
  let deviceTokenResult := deviceSignal dts deviceToken
  let ipResult := ipSignal digest ips req
  ⟨deviceTokenResult.canSearch && ipResult.canSearch,
   min deviceTokenResult.remaining ipResult.remaining⟩

/-- `incrementIPSearchCount` (src/middleware/deviceToken.js lines 168-191):
no-op when the client address or its hash is falsy or when the upsert
throws (caught and logged); otherwise upsert-increments the `IPLimit`
record for the hashed address. -/
def incrementIPSearchCount (digest : String → String) (ips : IpStore) (req : Request) :
    IpStore :=
  let clientIP := getClientIP req
  if truthy clientIP = false then
    ips
  else
    let hashedIP := hashIP digest (clientIP.getD "")
    if truthy hashedIP = false then
      ips
    else if ips.updateFails then
      ips
    else
      { ips with records := upsertIncrement ips.records (hashedIP.getD "") }

/-- `incrementSearchCount` (src/middleware/deviceToken.js lines 238-258):
increments the `DeviceToken` counter when a token is truthy (a throwing
update is caught and logged, leaving the store unchanged), then increments
the IP counter when a request is passed; the two halves are independent. -/
def incrementSearchCount (digest : String → String) (dts : IdStore) (ips : IpStore)
    (deviceToken : Option String) (req : Option Request) : IdStore × IpStore :=
  let dts' :=
    if truthy deviceToken then
      if dts.updateFails then
        dts
      else
        { dts with records := incrementFirst dts.records (deviceToken.getD "") }
    else
      dts
  let ips' :=
    match req with
    | some r => incrementIPSearchCount digest ips r
    | none => ips
  (dts', ips')

/-- Observable outcome of one run of the `getOrCreateDeviceToken`
middleware: the token attached as `req.deviceToken`, the token value set
via `res.cookie` (if any), the resulting Identity Store, whether the catch
block ran, and whether `next()` was called. -/
structure MWResult where
  reqDeviceToken : Option String
  cookieSet : Option String
  store : IdStore
  errorCaught : Bool
  nextCalled : Bool
deriving DecidableEq, Repr

/-- `getOrCreateDeviceToken` (src/middleware/deviceToken.js lines 52-125):
authenticated requests skip resolution; a falsy cookie mints `fresh`,
creates its record and sets the cookie; a truthy cookie is looked up and,
when orphaned, replaced by `fresh` with a new record and cookie; any store
error is caught, leaving `req.deviceToken = null` and still calling
`next()`. -/
def getOrCreateDeviceToken (dts : IdStore) (req : Request) (fresh : String) :
    MWResult :=
  if req.user then
    ⟨none, none, dts, false, true⟩
  else
    let token := req.cookieDeviceToken
    if truthy token = false then
      if dts.createFails then
        ⟨none, none, dts, true, true⟩
      else
        ⟨some fresh, some fresh, dtCreate dts fresh, false, true⟩
    else if dts.findFails then
      ⟨none, none, dts, true, true⟩
    else
      match findRecord dts.records (token.getD "") with
      | some _ => ⟨token, none, dts, false, true⟩
      | none =>
        if dts.createFails then
          ⟨none, none, dts, true, true⟩
        else
          ⟨some fresh, some fresh, dtCreate dts fresh, false, true⟩

/-- A fresh Identity Store with no records and a healthy backing store. -/
def idStore0 : IdStore := ⟨[], false, false, false⟩

/-- A fresh Network-Origin Store with no records and a healthy backing
store. -/
def ipStore0 : IpStore := ⟨[], false, false⟩

/-- Minting a fresh identity and then applying the search-count increment
`n` times through `incrementSearchCount` (device side only: no request is
passed, matching the JavaScript default `req = null`). -/
def mintThenIncrement (digest : String → String) (tok : String) (n : Nat) : IdStore :=
  (fun s => (incrementSearchCount digest s ipStore0 (some tok) none).1)^[n]
    (dtCreate idStore0 tok)

/-- A request arriving through a proxy: `x-forwarded-for: 1.1.1.1`,
no other address source, unauthenticated, no cookie. -/
def reqA : Request := ⟨some "1.1.1.1", none, none, none, none, false, none⟩

/-- The address-derivation order as the specification describes it: the
first comma-separated entry (trimmed) of the forwarded-address header when
that header is present (carrying a non-empty value, JavaScript truthiness),
otherwise the real-address header when present, otherwise the first
available transport-layer peer address (`connection.remoteAddress`,
`socket.remoteAddress`, `req.ip`), and `null` when none of the three
sources is available. -/
def specClientIP (req : Request) : Option String :=
  if truthy req.xForwardedFor then
    some (((jsSplit (req.xForwardedFor.getD "") ',').map jsTrim).headD "")
  else if truthy req.xRealIP then
    req.xRealIP
  else if truthy req.connectionRemoteAddress then
    req.connectionRemoteAddress
  else if truthy req.socketRemoteAddress then
    req.socketRemoteAddress
  else if truthy req.reqIP then
    req.reqIP
  else
    none

theorem remainingFor_nonneg (c : Nat) : 0 ≤ remainingFor c :=
  le_max_left 0 _

theorem remainingFor_le (c : Nat) : remainingFor c ≤ MAX_FREE_SEARCHES := by
  unfold remainingFor MAX_FREE_SEARCHES
  apply max_le
  · norm_num
  · omega

theorem deviceSignal_inv (dts : IdStore) (tok : Option String) :
    0 ≤ (deviceSignal dts tok).remaining ∧
      (deviceSignal dts tok).remaining ≤ MAX_FREE_SEARCHES ∧
      ((deviceSignal dts tok).canSearch = true ↔ 0 < (deviceSignal dts tok).remaining) := by
  unfold deviceSignal
  split
  · split
    · simp [MAX_FREE_SEARCHES]
    · split
      · exact ⟨remainingFor_nonneg _, remainingFor_le _, by simp⟩
      · simp [MAX_FREE_SEARCHES]
  · simp [MAX_FREE_SEARCHES]

theorem checkIPSearchLimit_inv (digest : String → String) (ips : IpStore)
    (req : Request) :
    0 ≤ (checkIPSearchLimit digest ips req).remaining ∧
      (checkIPSearchLimit digest ips req).remaining ≤ MAX_FREE_SEARCHES ∧
      ((checkIPSearchLimit digest ips req).canSearch = true ↔
        0 < (checkIPSearchLimit digest ips req).remaining) := by
  simp only [checkIPSearchLimit]
  repeat' split
  all_goals
    first
      | exact ⟨remainingFor_nonneg _, remainingFor_le _, by simp⟩
      | simp [MAX_FREE_SEARCHES]

theorem ipSignal_inv (digest : String → String) (ips : IpStore)
    (req : Option Request) :
    0 ≤ (ipSignal digest ips req).remaining ∧
      (ipSignal digest ips req).remaining ≤ MAX_FREE_SEARCHES ∧
      ((ipSignal digest ips req).canSearch = true ↔
        0 < (ipSignal digest ips req).remaining) := by
  unfold ipSignal
  cases req with
  | none => simp [MAX_FREE_SEARCHES]
  | some r => exact checkIPSearchLimit_inv digest ips r

theorem checkSearchLimit_eq (digest : String → String) (dts : IdStore)
    (ips : IpStore) (tok : Option String) (req : Option Request) :
    checkSearchLimit digest dts ips tok req =
      ⟨(deviceSignal dts tok).canSearch && (ipSignal digest ips req).canSearch,
       min (deviceSignal dts tok).remaining (ipSignal digest ips req).remaining⟩ :=
  rfl

theorem checkSearchLimit_device_denied (digest : String → String) (dts : IdStore)
    (ips : IpStore) (tok : Option String) (req : Option Request)
    (h : deviceSignal dts tok = ⟨false, 0⟩) :
    checkSearchLimit digest dts ips tok req = ⟨false, 0⟩ := by
  rw [checkSearchLimit_eq, h]
  have h0 := (ipSignal_inv digest ips req).1
  simp [min_eq_left h0]

theorem checkIPSearchLimit_findFails (digest : String → String) (ips : IpStore)
    (req : Request) (h : ips.findFails = true) :
    checkIPSearchLimit digest ips req = ⟨true, MAX_FREE_SEARCHES⟩ := by
  unfold checkIPSearchLimit
  simp [h]

theorem findRecord_incrementFirst (recs : List (String × Nat)) (k : String) :
    findRecord (incrementFirst recs k) k = (findRecord recs k).map (· + 1) := by
  induction recs with
  | nil => rfl
  | cons p rest ih =>
    obtain ⟨t, c⟩ := p
    by_cases h : t = k
    · simp [incrementFirst, findRecord, h]
    · simp [incrementFirst, findRecord, h, ih]

theorem findRecord_upsertIncrement (recs : List (String × Nat)) (k : String) :
    findRecord (upsertIncrement recs k) k =
      some ((findRecord recs k).getD 0 + 1) := by
  unfold upsertIncrement
  cases h : findRecord recs k with
  | none => simp [findRecord]
  | some c => simp [findRecord_incrementFirst, h]

theorem mintThenIncrement_eq (digest : String → String) (tok : String)
    (h : tok ≠ "") (n : Nat) :
    mintThenIncrement digest tok n = ⟨[(tok, n)], false, false, false⟩ := by
  induction n with
  | zero => simp [mintThenIncrement, dtCreate, idStore0]
  | succ n ih =>
    unfold mintThenIncrement at ih ⊢
    rw [Function.iterate_succ_apply', ih]
    simp [incrementSearchCount, truthy, bne_iff_ne, h, incrementFirst]

/-- Claim C1, counterexample: with a valid token whose record has
`searchCount = 0` but a throwing `DeviceToken.findOne`, and a healthy IP
signal, `checkSearchLimit` returns `canSearch = false, remaining = 0` —
not the fully-allowed `canSearch = true, remaining = 6` that the claim's
"failing signal degrades to fully allowed, decision driven by the
remaining signal alone" would require. -/
theorem evaluator_identity_error_not_fail_open_cex :
    checkSearchLimit (fun s => s) ⟨[("t", 0)], true, false, false⟩
        ⟨[], false, false⟩ (some "t") (some reqA) = ⟨false, 0⟩ ∧
      (⟨false, 0⟩ : LimitResult) ≠ ⟨true, MAX_FREE_SEARCHES⟩ := by
  decide

/-- Claim C1, amended: no store error propagates past the evaluator (both
checks are total), but only the Network-Origin signal degrades to fully
allowed (`canSearch = true, remaining = LIMIT`); a store error on the
identity signal degrades to denied, so the overall decision is then
`canSearch = false, remaining = 0` regardless of the IP signal. -/
theorem evaluator_store_error_degradation (digest : String → String)
    (dts : IdStore) (ips : IpStore) (tok : Option String) (req : Request)
    (req2 : Option Request) :
    (ips.findFails = true →
      checkIPSearchLimit digest ips req = ⟨true, MAX_FREE_SEARCHES⟩) ∧
    (dts.findFails = true →
      checkSearchLimit digest dts ips tok req2 = ⟨false, 0⟩) := by
  constructor
  · exact checkIPSearchLimit_findFails digest ips req
  · intro h
    apply checkSearchLimit_device_denied
    unfold deviceSignal
    split
    · simp [h]
    · rfl

/-- Witness for `evaluator_store_error_degradation` at a throwing IP store
and a throwing identity store respectively. -/
theorem evaluator_store_error_degradation_witness :
    checkIPSearchLimit (fun s => s) ⟨[("1.1.1.1", 2)], true, false⟩ reqA =
        ⟨true, MAX_FREE_SEARCHES⟩ ∧
      checkSearchLimit (fun s => s) ⟨[("u", 0)], true, false, false⟩
        ⟨[], false, false⟩ (some "u") (some reqA) = ⟨false, 0⟩ :=
  ⟨(evaluator_store_error_degradation (fun s => s)
      ⟨[("u", 0)], true, false, false⟩ ⟨[("1.1.1.1", 2)], true, false⟩
      (some "u") reqA (some reqA)).1 rfl,
   (evaluator_store_error_degradation (fun s => s)
      ⟨[("u", 0)], true, false, false⟩ ⟨[], false, false⟩
      (some "u") reqA (some reqA)).2 rfl⟩

/-- Claim C2: with both records present and healthy stores,
`checkSearchLimit` returns `allowed = (max 0 (6-i) > 0) && (max 0 (6-a) > 0)`
and `remaining = min (max 0 (6-i)) (max 0 (6-a))`. -/
theorem evaluate_combines_signals (digest : String → String) (dts : IdStore)
    (ips : IpStore) (tok clientIP : String) (req : Request) (i a : Nat)
    (hdf : dts.findFails = false) (htok : tok ≠ "")
    (hi : findRecord dts.records tok = some i)
    (hip : getClientIP req = some clientIP) (hcip : clientIP ≠ "")
    (hdg : digest clientIP ≠ "") (hif : ips.findFails = false)
    (ha : findRecord ips.records (digest clientIP) = some a) :
    checkSearchLimit digest dts ips (some tok) (some req) =
      ⟨decide (0 < remainingFor i) && decide (0 < remainingFor a),
       min (remainingFor i) (remainingFor a)⟩ := by
  rw [checkSearchLimit_eq]
  have hd : deviceSignal dts (some tok) =
      ⟨decide (0 < remainingFor i), remainingFor i⟩ := by
    unfold deviceSignal
    simp [truthy, bne_iff_ne, htok, hdf, hi]
  have hipr : ipSignal digest ips (some req) =
      ⟨decide (0 < remainingFor a), remainingFor a⟩ := by
    unfold ipSignal checkIPSearchLimit
    simp [hip, truthy, bne_iff_ne, hcip, hashIP, hdg, hif, ha]
  rw [hd, hipr]

/-- Witness for `evaluate_combines_signals`: identity count 3 with address
count 5 gives `allowed, remaining = 1`; identity count 6 with address
count 0 gives `denied, remaining = 0`. -/
theorem evaluate_combines_signals_witness :
    checkSearchLimit (fun s => s) ⟨[("t", 3)], false, false, false⟩
        ⟨[("1.1.1.1", 5)], false, false⟩ (some "t") (some reqA) = ⟨true, 1⟩ ∧
      checkSearchLimit (fun s => s) ⟨[("t", 6)], false, false, false⟩
        ⟨[("1.1.1.1", 0)], false, false⟩ (some "t") (some reqA) = ⟨false, 0⟩ :=
  ⟨(evaluate_combines_signals (fun s => s) ⟨[("t", 3)], false, false, false⟩
      ⟨[("1.1.1.1", 5)], false, false⟩ "t" "1.1.1.1" reqA 3 5 rfl (by decide)
      rfl (by decide) (by decide) (by decide) rfl rfl).trans (by decide),
   (evaluate_combines_signals (fun s => s) ⟨[("t", 6)], false, false, false⟩
      ⟨[("1.1.1.1", 0)], false, false⟩ "t" "1.1.1.1" reqA 6 0 rfl (by decide)
      rfl (by decide) (by decide) (by decide) rfl rfl).trans (by decide)⟩

/-- Claim C3: with no identity token, or with a token that has no matching
Identity Store record, the evaluator returns `canSearch = false,
remaining = 0` regardless of the IP signal's state. -/
theorem no_identity_denies (digest : String → String) (dts : IdStore)
    (ips : IpStore) (req : Option Request) (tok : String) :
    checkSearchLimit digest dts ips none req = ⟨false, 0⟩ ∧
      (dts.findFails = false → findRecord dts.records tok = none →
        checkSearchLimit digest dts ips (some tok) req = ⟨false, 0⟩) := by
  constructor
  · exact checkSearchLimit_device_denied digest dts ips none req rfl
  · intro hf hn
    apply checkSearchLimit_device_denied
    unfold deviceSignal
    split
    · simp [hf, hn]
    · rfl

/-- Witness for `no_identity_denies` on a fresh store, with and without a
token, against a request whose IP signal is fully allowed. -/
theorem no_identity_denies_witness :
    checkSearchLimit (fun s => s) idStore0 ipStore0 none (some reqA) =
        ⟨false, 0⟩ ∧
      checkSearchLimit (fun s => s) idStore0 ipStore0 (some "t") (some reqA) =
        ⟨false, 0⟩ :=
  ⟨(no_identity_denies (fun s => s) idStore0 ipStore0 (some reqA) "t").1,
   (no_identity_denies (fun s => s) idStore0 ipStore0 (some reqA) "t").2
     rfl rfl⟩

/-- Claim C4: minting a fresh identity and incrementing it `LIMIT = 6`
times then evaluating yields `canSearch = false, remaining = 0`; a seventh
increment still yields `remaining = 0`; and the remaining count
`max 0 (6 - searchCount)` is never negative for any count. -/
theorem mint_increment_roundtrip (digest : String → String) (tok : String)
    (htok : tok ≠ "") :
    checkSearchLimit digest (mintThenIncrement digest tok 6) ipStore0
        (some tok) none = ⟨false, 0⟩ ∧
      checkSearchLimit digest (mintThenIncrement digest tok 7) ipStore0
        (some tok) none = ⟨false, 0⟩ ∧
      ∀ c : Nat, 0 ≤ remainingFor c := by
  have h6 : (⟨decide (0 < remainingFor 6), remainingFor 6⟩ : LimitResult) =
      ⟨false, 0⟩ := by decide
  have h7 : (⟨decide (0 < remainingFor 7), remainingFor 7⟩ : LimitResult) =
      ⟨false, 0⟩ := by decide
  refine ⟨?_, ?_, remainingFor_nonneg⟩
  · rw [mintThenIncrement_eq digest tok htok 6]
    apply checkSearchLimit_device_denied
    unfold deviceSignal
    simp [truthy, bne_iff_ne, htok, findRecord, h6]
  · rw [mintThenIncrement_eq digest tok htok 7]
    apply checkSearchLimit_device_denied
    unfold deviceSignal
    simp [truthy, bne_iff_ne, htok, findRecord, h7]

/-- Witness for `mint_increment_roundtrip` at the concrete token `t`. -/
theorem mint_increment_roundtrip_witness :
    checkSearchLimit (fun s => s) (mintThenIncrement (fun s => s) "t" 6)
        ipStore0 (some "t") none = ⟨false, 0⟩ ∧
      checkSearchLimit (fun s => s) (mintThenIncrement (fun s => s) "t" 7)
        ipStore0 (some "t") none = ⟨false, 0⟩ :=
  ⟨(mint_increment_roundtrip (fun s => s) "t" (by decide)).1,
   (mint_increment_roundtrip (fun s => s) "t" (by decide)).2.1⟩

/-- Claim C5: when the Network-Origin Store lookup throws, the IP signal is
replaced by `canSearch = true, remaining = LIMIT` and the overall result
equals the identity signal alone — in particular the failed IP signal
never causes denial on its own. -/
theorem ip_store_error_fail_open (digest : String → String) (dts : IdStore)
    (ips : IpStore) (tok : Option String) (req : Request)
    (h : ips.findFails = true) :
    checkIPSearchLimit digest ips req = ⟨true, MAX_FREE_SEARCHES⟩ ∧
      checkSearchLimit digest dts ips tok (some req) = deviceSignal dts tok := by
  refine ⟨checkIPSearchLimit_findFails digest ips req h, ?_⟩
  have hi : ipSignal digest ips (some req) = ⟨true, MAX_FREE_SEARCHES⟩ :=
    checkIPSearchLimit_findFails digest ips req h
  rw [checkSearchLimit_eq, hi]
  have h2 := deviceSignal_inv dts tok
  cases hd : deviceSignal dts tok with
  | mk cs r =>
    rw [hd] at h2
    simp only at h2
    simp [Bool.and_true, min_eq_left h2.2.1]

/-- Witness for `ip_store_error_fail_open`: the IP record is over the
limit (count 9) but its store throws, and the result is exactly the
identity signal. -/
theorem ip_store_error_fail_open_witness :
    checkIPSearchLimit (fun s => s) ⟨[("1.1.1.1", 9)], true, false⟩ reqA =
        ⟨true, MAX_FREE_SEARCHES⟩ ∧
      checkSearchLimit (fun s => s) ⟨[("t", 1)], false, false, false⟩
          ⟨[("1.1.1.1", 9)], true, false⟩ (some "t") (some reqA) =
        deviceSignal ⟨[("t", 1)], false, false, false⟩ (some "t") :=
  ip_store_error_fail_open (fun s => s) ⟨[("t", 1)], false, false, false⟩
    ⟨[("1.1.1.1", 9)], true, false⟩ (some "t") reqA rfl

/-- Claim C6: whenever a store error is caught during identity resolution,
the middleware attaches `req.deviceToken = null` and still calls
`next()`. -/
theorem resolver_error_degrades_to_no_identity (dts : IdStore) (req : Request)
    (fresh : String)
    (h : (getOrCreateDeviceToken dts req fresh).errorCaught = true) :
    (getOrCreateDeviceToken dts req fresh).reqDeviceToken = none ∧
      (getOrCreateDeviceToken dts req fresh).nextCalled = true := by
  revert h
  simp only [getOrCreateDeviceToken]
  repeat' split
  all_goals simp

/-- Witness for `resolver_error_degrades_to_no_identity`: a cookie-less
request against a store whose `create` throws. -/
theorem resolver_error_degrades_to_no_identity_witness :
    (getOrCreateDeviceToken ⟨[], false, true, false⟩ reqA "f").errorCaught =
        true ∧
      (getOrCreateDeviceToken ⟨[], false, true, false⟩ reqA "f").reqDeviceToken =
          none ∧
        (getOrCreateDeviceToken ⟨[], false, true, false⟩ reqA "f").nextCalled =
          true :=
  ⟨by decide,
   resolver_error_degrades_to_no_identity ⟨[], false, true, false⟩ reqA "f"
     (by decide)⟩

/-- Claim C7: the two counter increments are independent — a throwing
device-token update leaves the Identity Store unchanged while the IP
counter still completes its upsert-increment, and a throwing IP update
leaves the Network-Origin Store unchanged while the device-token counter
still completes its increment. -/
theorem increment_counters_independent (digest : String → String)
    (dts : IdStore) (ips : IpStore) (tok clientIP : String) (req : Request)
    (c : Nat) :
    (dts.updateFails = true → ips.updateFails = false →
      getClientIP req = some clientIP → clientIP ≠ "" → digest clientIP ≠ "" →
      (incrementSearchCount digest dts ips (some tok) (some req)).1 = dts ∧
        findRecord
            (incrementSearchCount digest dts ips (some tok) (some req)).2.records
            (digest clientIP) =
          some ((findRecord ips.records (digest clientIP)).getD 0 + 1)) ∧
    (ips.updateFails = true → dts.updateFails = false → tok ≠ "" →
      findRecord dts.records tok = some c →
      (incrementSearchCount digest dts ips (some tok) (some req)).2 = ips ∧
        findRecord
            (incrementSearchCount digest dts ips (some tok) (some req)).1.records
            tok =
          some (c + 1)) := by
  constructor
  · intro hdu hiu hip hcip hdg
    constructor
    · simp [incrementSearchCount, hdu]
    · simp [incrementSearchCount, incrementIPSearchCount, hip, truthy,
        bne_iff_ne, hcip, hashIP, hdg, hiu, findRecord_upsertIncrement]
  · intro hiu hdu htok hc
    constructor
    · simp [incrementSearchCount, incrementIPSearchCount, hiu]
    · simp [incrementSearchCount, truthy, bne_iff_ne, htok, hdu,
        findRecord_incrementFirst, hc]

/-- Witness for `increment_counters_independent`: with a throwing device
update the IP count 4 still becomes 5, and with a throwing IP update the
device count 2 still becomes 3. -/
theorem increment_counters_independent_witness :
    findRecord
        ((incrementSearchCount (fun s => s) ⟨[("t", 2)], false, false, true⟩
              ⟨[("1.1.1.1", 4)], false, false⟩ (some "t") (some reqA)).2).records
        "1.1.1.1" =
      some 5 ∧
    findRecord
        ((incrementSearchCount (fun s => s) ⟨[("t", 2)], false, false, false⟩
              ⟨[], false, true⟩ (some "t") (some reqA)).1).records "t" =
      some 3 :=
  ⟨((increment_counters_independent (fun s => s)
      ⟨[("t", 2)], false, false, true⟩ ⟨[("1.1.1.1", 4)], false, false⟩
      "t" "1.1.1.1" reqA 2).1 rfl rfl (by decide) (by decide)
      (by decide)).2.trans (by decide),
   ((increment_counters_independent (fun s => s)
      ⟨[("t", 2)], false, false, false⟩ ⟨[], false, true⟩
      "t" "1.1.1.1" reqA 2).2 rfl rfl (by decide) rfl).2.trans (by decide)⟩

/-- Claim C8: the derived network address follows the spec's derivation
order — first (trimmed) comma-separated entry of a truthy forwarded-address
header, else a truthy real-address header, else the first truthy of the
transport-layer sources, else `null` (presence is JavaScript truthiness:
an empty header value counts as absent, as in the code's falsy checks). -/
theorem client_address_derivation (req : Request) :
    getClientIP req = specClientIP req := by
  unfold getClientIP specClientIP jsOr
  rfl

/-- Claim C10: every result of the quota evaluator satisfies
`0 ≤ remaining ≤ LIMIT` and `canSearch = true` exactly when
`remaining > 0`, across normal, missing-record, missing-token and
error-recovery paths. -/
theorem quota_result_invariant (digest : String → String) (dts : IdStore)
    (ips : IpStore) (tok : Option String) (req : Option Request) :
    0 ≤ (checkSearchLimit digest dts ips tok req).remaining ∧
      (checkSearchLimit digest dts ips tok req).remaining ≤ MAX_FREE_SEARCHES ∧
      ((checkSearchLimit digest dts ips tok req).canSearch = true ↔
        0 < (checkSearchLimit digest dts ips tok req).remaining) := by
  obtain ⟨hd0, hd6, hdc⟩ := deviceSignal_inv dts tok
  obtain ⟨hi0, hi6, hic⟩ := ipSignal_inv digest ips req
  rw [checkSearchLimit_eq]
  refine ⟨le_min hd0 hi0, le_trans (min_le_left _ _) hd6, ?_⟩
  simp only [Bool.and_eq_true, lt_min_iff]
  rw [hdc, hic]

/-- Claim C9: an unauthenticated request whose cookie token matches an
existing record leaves the Identity Store untouched, sets no cookie,
reports no error, attaches the cookie's token and calls `next()`. -/
theorem cookie_hit_no_mutation (dts : IdStore) (req : Request)
    (fresh t : String) (c : Nat) (hu : req.user = false)
    (hc : req.cookieDeviceToken = some t) (ht : t ≠ "")
    (hf : dts.findFails = false) (hr : findRecord dts.records t = some c) :
    getOrCreateDeviceToken dts req fresh = ⟨some t, none, dts, false, true⟩ := by
  unfold getOrCreateDeviceToken
  simp [hu, hc, truthy, bne_iff_ne, ht, hf, hr]

/-- Witness for `cookie_hit_no_mutation` at a concrete request and store. -/
theorem cookie_hit_no_mutation_witness :
    getOrCreateDeviceToken ⟨[("t", 2)], false, false, false⟩
        ⟨none, none, none, none, none, false, some "t"⟩ "f" =
      ⟨some "t", none, ⟨[("t", 2)], false, false, false⟩, false, true⟩ :=
  cookie_hit_no_mutation ⟨[("t", 2)], false, false, false⟩
    ⟨none, none, none, none, none, false, some "t"⟩ "f" "t" 2 rfl rfl
    (by decide) rfl rfl
